import Mathlib

/-!
Verification development for `experiment_manager.py` of the
`ethz_glocal_exploration` repository (ROS node `EvalData`).

The node is shallowly embedded as pure state-transition functions.
Every interaction with the outside world (the CSV writer, the free-text
log, the voxblox save-map service, `rospy.signal_shutdown`, console
logging, file closes) is recorded as an `Effect` in an emitted effect
list.  External inputs consumed during a callback (the current clock
readings, the outcome of the planner service call, the outcome of the
two `tf` transform lookups) are bundled in a `TickEnv` environment
value.  Python floats are modelled as real numbers.  A Python exception
that escapes a callback uncaught is modelled by the `TickOutcome.raised`
outcome together with the state and effects accumulated up to the raise.
-/

namespace ExperimentManager

/-- A 3-vector (a `tf` translation), components `(x, y, z)`. -/
abbrev V3 : Type := ℝ × ℝ × ℝ

/-- A quaternion in `tf` component order `(x, y, z, w)`; the scalar part
is the fourth component, accessed as `q.2.2.2` (Python `r[3]`). -/
abbrev Quat : Type := ℝ × ℝ × ℝ × ℝ

/-- One cell of a CSV row: the Python code writes strings (the map name
and the header/unit cells) and numbers (times and drifts; the integer
`0` placeholders and the float drift values are both modelled as real
numbers). -/
inductive Cell where
  | str (s : String)
  | num (x : ℝ)

/-- Observable side effects of the node, in emission order:
`csvRow` is a `self.eval_writer.writerow(...)` call, `snapshot` a
`self.eval_voxblox_service(path)` call, `shutdownRequest` a
`rospy.signal_shutdown(reason)` call, `logLine` a line appended to
`data_log.txt` by `writelog` (the wall-clock timestamp prefix that
`writelog` prepends is elided), `consoleLog` a `rospy.loginfo`, and the
two `close*` effects are the `close()` calls on the two file handles. -/
inductive Effect where
  | csvRow (row : List Cell)
  | snapshot (path : String)
  | shutdownRequest (reason : String)
  | logLine (text : String)
  | consoleLog (text : String)
  | closeDataFile
  | closeLogFile

/-- Outcome of running one callback: `ok` when the callback returns
normally, `raised` when a Python exception escapes it uncaught (in ROS
this aborts only that callback invocation, not the process). -/
inductive TickOutcome where
  | ok
  | raised
deriving DecidableEq

/-- Mutable attributes of the `EvalData` instance.  Attributes that are
only assigned on some code paths (`collided`, the two file handles and
the two start timestamps) are `Option`-valued: `none` models the
attribute not having been set yet (`self.eval_walltime_0 = None`, or the
attribute never created when evaluation is disabled); reading such a
`none` through arithmetic or a call raises in Python and is modelled as
`TickOutcome.raised`.  For the file handles, `some true` is an open
handle and `some false` a closed one.  `eval_directory` is only
assigned (and only read) when `evaluate` is set; it is kept as a plain
string that is `""` otherwise. -/
structure EvalState where
  evaluate : Bool
  time_limit : ℝ
  eval_directory : String
  shutdown_reason_known : Bool
  eval_n_maps : ℕ
  collided : Option Bool
  collisionSubscribed : Bool
  dataFile : Option Bool
  logFile : Option Bool
  eval_walltime_0 : Option ℝ
  eval_rostime_0 : Option ℝ

/-- The ROS parameters read in `EvalData.__init__` (lines 28-57). -/
structure Config where
  ns_planner : String
  planner_delay : ℝ
  startup_timeout : ℝ
  evaluate : Bool
  eval_frequency : ℝ
  time_limit : ℝ
  eval_directory : String
  ns_voxblox : String

/-- External inputs consumed by one `eval_callback` invocation:
whether `self.run_planner_srv(True)` returned without raising
(`plannerOk`), the `time.time()` and `rospy.get_time()` readings of
lines 211-212, the second `rospy.get_time()` reading at the time-limit
check of line 264 (`nowRos2`), and the results of the transform
lookups — `none` models a lookup raising one of the three caught `tf`
exceptions (`LookupException`, `ConnectivityException`,
`ExtrapolationException`). -/
structure TickEnv where
  plannerOk : Bool
  nowWall : ℝ
  nowRos : ℝ
  nowRos2 : ℝ
  trackedLookup : Option (V3 × Quat)
  estLookup : Option ((V3 × Quat) × (V3 × Quat))

/-- Python `"\x7b0:05d\x7d".format(n)`: the decimal digits of `n`,
left-padded with zeros to width 5. -/
def zeroPad5 (n : ℕ) : String :=
  let s := toString n
  if s.length < 5 then String.mk (List.replicate (5 - s.length) '0') ++ s else s

/-- The header row written at line 80 of `__init__`. -/
def headerRow : List Cell :=
  [Cell.str "MapName", Cell.str "RosTime", Cell.str "WallTime",
   Cell.str "PositionDrift", Cell.str "RotationDrift",
   Cell.str "PositionDriftEstimated", Cell.str "RotationDriftEstimated"]

/-- The units row written at line 85 of `__init__`. -/
def unitRow : List Cell :=
  [Cell.str "Unit", Cell.str "s", Cell.str "s", Cell.str "m",
   Cell.str "deg", Cell.str "m", Cell.str "deg"]

/-- `EvalData.writelog` (lines 268-274): appends a line to the free-text
log only when evaluation is enabled; returns the emitted effects. -/
def writelog (s : EvalState) (text : String) : List Effect :=
  if s.evaluate then [Effect.logLine text] else []

/-- `EvalData.stop_experiment` (lines 276-286): prefixes the reason,
unconditionally sets `shutdown_reason_known`, writes the free-text log
line (when evaluating), prints the boxed console banner, and calls
`rospy.signal_shutdown` — there is no guard against being called more
than once. -/
def stop_experiment (s : EvalState) (reason : String) : EvalState × List Effect :=
  let reason2 := "Stopping the experiment: " ++ reason
  let s1 : EvalState := { s with shutdown_reason_known := true }
  (s1, writelog s1 reason2 ++
    [Effect.consoleLog reason2, Effect.shutdownRequest reason2])

/-- `EvalData.collision_callback` (lines 304-307): only the first signal
(with `self.collided` False) sets the flag and stops the experiment.
Reading `self.collided` when the attribute was never created (evaluation
disabled) would raise `AttributeError`, modelled by `raised`. -/
def collision_callback (s : EvalState) : EvalState × List Effect × TickOutcome :=
  match s.collided with
  | none => (s, [], TickOutcome.raised)
  | some c =>
    if c then (s, [], TickOutcome.ok)
    else
      let s1 : EvalState := { s with collided := some true }
      let r := stop_experiment s1 "Collision detected!"
      (r.1, r.2, TickOutcome.ok)

/-- Delivery of one message on the `collision` topic: the callback only
runs if the subscription was created in `__init__` (line 91, evaluation
enabled); without a subscription the message is never delivered. -/
def deliverCollision (s : EvalState) : EvalState × List Effect × TickOutcome :=
  if s.collisionSubscribed then collision_callback s else (s, [], TickOutcome.ok)

/-- Delivery of `n` successive collision messages, accumulating effects
(an exception aborts only its own callback invocation). -/
def deliverCollisions : EvalState → ℕ → EvalState × List Effect
  | s, 0 => (s, [])
  | s, n + 1 =>
    let r := deliverCollision s
    let rest := deliverCollisions r.1 n
    (rest.1, r.2.1 ++ rest.2)

/-- `EvalData.eval_finish` (lines 288-302): close the CSV handle, count
the files on disk in `voxblox_maps` (supplied here as `filesOnDisk`),
log the fallback reason if none was recorded, log the
`"%d/%d maps created"` summary, close the free-text log, and print a
console notice.  Accessing the file-handle attributes when they were
never created is modelled by `raised`. -/
def eval_finish (s : EvalState) (filesOnDisk : ℕ) :
    EvalState × List Effect × TickOutcome :=
  match s.dataFile, s.logFile with
  | some _, some _ =>
    let s1 : EvalState := { s with dataFile := some false }
    let e2 := if s.shutdown_reason_known then []
      else writelog s1 "Stopping the experiment: External Interrupt."
    let e3 := writelog s1 ("Finished the simulation, " ++ toString filesOnDisk ++
      "/" ++ toString s1.eval_n_maps ++ " maps created.")
    let s2 : EvalState := { s1 with logFile := some false }
    (s2, Effect.closeDataFile :: (e2 ++ e3 ++
      [Effect.closeLogFile,
       Effect.consoleLog
         "[ExperimentManager]: On eval_data_node shutdown: closing data files."]),
     TickOutcome.ok)
  | _, _ => (s, [], TickOutcome.raised)

/-- `EvalData.__init__` (lines 25-105), up to the call of
`launch_simulation`.  `dirValid` models `os.path.isdir` on the
configured directory and `timestamp` the `datetime.now()` directory
name.  Returns `none` for the fatal `sys.exit(-1)` on an invalid
directory (only checked when evaluation is enabled).  When evaluation is
enabled, the header and unit rows are written, the collision topic is
subscribed, the `collided` flag and the file handles are created, and
the data-folder log lines are emitted; otherwise none of this happens.
The two start timestamps remain unset (`None`) until
`launch_simulation` records them (lines 154-155). -/
def EvalData_init (cfg : Config) (dirValid : Bool) (timestamp : String) :
    Option (EvalState × List Effect) :=
  if cfg.evaluate then
    if dirValid then
      let dir := cfg.eval_directory ++ "/" ++ timestamp
      some ({ evaluate := true, time_limit := cfg.time_limit,
              eval_directory := dir, shutdown_reason_known := false,
              eval_n_maps := 0, collided := some false,
              collisionSubscribed := true, dataFile := some true,
              logFile := some true, eval_walltime_0 := none,
              eval_rostime_0 := none },
            [Effect.csvRow headerRow, Effect.csvRow unitRow,
             Effect.logLine ("Data folder created at \x27" ++ dir ++ "\x27."),
             Effect.consoleLog
               ("[ExperimentManager]: Data folder created at \x27" ++ dir ++ "\x27.")])
    else none
  else
    some ({ evaluate := false, time_limit := cfg.time_limit,
            eval_directory := "", shutdown_reason_known := false,
            eval_n_maps := 0, collided := none,
            collisionSubscribed := false, dataFile := none,
            logFile := none, eval_walltime_0 := none,
            eval_rostime_0 := none }, [])

/-- Python `math.acos`: raises `ValueError` outside `[-1, 1]` (modelled
as `Except.error`), otherwise the arc-cosine.  The code applies it
directly to the quaternion scalar component without clamping. -/
noncomputable def macos (x : ℝ) : Except Unit ℝ :=
  if x < -1 ∨ 1 < x then Except.error () else Except.ok (Real.arccos x)

/-- Lines 216-227: the tracked-drift metric.  A failed lookup (any of
the three caught `tf` exceptions) degrades to `(0, 0)`; on success the
position drift is `(t[0]**2 + t[1]**2 + t[2]**2)**0.5` (the Euclidean
norm, the argument being a sum of squares) and the rotation drift is
`2 * math.acos(r[3]) * 180 / pi`, whose `acos` is outside the
`try`/`except` and can raise. -/
noncomputable def trackedDrift (lk : Option (V3 × Quat)) : Except Unit (ℝ × ℝ) :=
  match lk with
  | none => Except.ok (0, 0)
  | some (t, r) =>
    match macos r.2.2.2 with
    | Except.error e => Except.error e
    | Except.ok a =>
      Except.ok (Real.sqrt (t.1 ^ 2 + t.2.1 ^ 2 + t.2.2 ^ 2),
        2 * a * 180 / Real.pi)

/-- `numpy.finfo(float).eps * 4.0`, the `_EPS` constant of the external
`tf.transformations` module. -/
noncomputable def EPS : ℝ := 4 / 2 ^ 52

/-- `tf.transformations.translation_matrix` (external library):
homogeneous 4x4 matrix with the given translation in the last column. -/
noncomputable def translation_matrix (t : V3) : Matrix (Fin 4) (Fin 4) ℝ :=
  !![1, 0, 0, t.1; 0, 1, 0, t.2.1; 0, 0, 1, t.2.2; 0, 0, 0, 1]

/-- `tf.transformations.quaternion_matrix` (external library):
homogeneous rotation matrix of a quaternion `(x, y, z, w)`.  The library
scales the quaternion by `sqrt(2 / nq)` and takes its outer product, so
every entry is `2 / nq` times a product of two components; near-zero
quaternions (squared norm below `_EPS`) yield the identity. -/
noncomputable def quaternion_matrix (q : Quat) : Matrix (Fin 4) (Fin 4) ℝ :=
  let x := q.1
  let y := q.2.1
  let z := q.2.2.1
  let w := q.2.2.2
  let nq := x * x + y * y + z * z + w * w
  if nq < EPS then 1 else
  let s := 2 / nq
  !![1 - s * (y * y + z * z), s * (x * y - z * w), s * (x * z + y * w), 0;
     s * (x * y + z * w), 1 - s * (x * x + z * z), s * (y * z - x * w), 0;
     s * (x * z - y * w), s * (y * z + x * w), 1 - s * (x * x + y * y), 0;
     0, 0, 0, 1]

/-- `tf.transformations.translation_from_matrix`: the last column. -/
noncomputable def translation_from_matrix (M : Matrix (Fin 4) (Fin 4) ℝ) : V3 :=
  (M 0 3, M 1 3, M 2 3)

/-- Final scaling step of `tf.transformations.quaternion_from_matrix`:
`q *= 0.5 / math.sqrt(t * M[3, 3])`.  `math.sqrt` raises `ValueError`
for a negative argument and the division raises `ZeroDivisionError` for
a zero one, so a non-positive `t * M[3, 3]` raises. -/
noncomputable def scaleQuat (q : Fin 4 → ℝ) (t m33 : ℝ) : Except Unit Quat :=
  if t * m33 ≤ 0 then Except.error ()
  else
    let c := 0.5 / Real.sqrt (t * m33)
    Except.ok (q 0 * c, q 1 * c, q 2 * c, q 3 * c)

/-- `tf.transformations.quaternion_from_matrix` (external library): the
trace-based branch when `trace > M[3, 3]`, otherwise the permuted-index
branch, both followed by the common scaling step. -/
noncomputable def quaternion_from_matrix (M : Matrix (Fin 4) (Fin 4) ℝ) :
    Except Unit Quat :=
  let tr := M 0 0 + M 1 1 + M 2 2 + M 3 3
  if M 3 3 < tr then
    scaleQuat (fun idx =>
      if idx = 0 then M 2 1 - M 1 2
      else if idx = 1 then M 0 2 - M 2 0
      else if idx = 2 then M 1 0 - M 0 1
      else tr) tr (M 3 3)
  else
    let ijk : Fin 4 × Fin 4 × Fin 4 :=
      if M 0 0 < M 1 1 then (if M 1 1 < M 2 2 then (2, 0, 1) else (1, 2, 0))
      else (if M 0 0 < M 2 2 then (2, 0, 1) else (0, 1, 2))
    let i := ijk.1
    let j := ijk.2.1
    let k := ijk.2.2
    let t := M i i - (M j j + M k k) + M 3 3
    scaleQuat (fun idx =>
      if idx = i then t
      else if idx = j then M i j + M j i
      else if idx = k then M k i + M i k
      else M k j - M j k) t (M 3 3)

/-- Lines 242-249: compose the two looked-up transforms by multiplying
their homogeneous matrices and extract translation and quaternion. -/
noncomputable def estimatedCompose (t : V3) (r : Quat) (t2 : V3) (r2 : Quat) :
    Except Unit (V3 × Quat) :=
  let trans1 := translation_matrix t * quaternion_matrix r
  let trans2 := translation_matrix t2 * quaternion_matrix r2
  let trans := trans1 * trans2
  Except.map (fun rq => (translation_from_matrix trans, rq))
    (quaternion_from_matrix trans)

/-- Lines 229-251: the estimated-drift metric.  A failure of either
lookup degrades to `(0, 0)`; on success the composed transform's
translation norm and quaternion scalar arc-cosine are taken, where the
matrix-to-quaternion conversion and the unclamped `acos` can raise. -/
noncomputable def estimatedDrift (lk : Option ((V3 × Quat) × (V3 × Quat))) :
    Except Unit (ℝ × ℝ) :=
  match lk with
  | none => Except.ok (0, 0)
  | some ((t, r), (t2, r2)) =>
    match estimatedCompose t r t2 r2 with
    | Except.error e => Except.error e
    | Except.ok (tc, rc) =>
      match macos rc.2.2.2 with
      | Except.error e => Except.error e
      | Except.ok a =>
        Except.ok (Real.sqrt (tc.1 ^ 2 + tc.2.1 ^ 2 + tc.2.2 ^ 2),
          2 * a * 180 / Real.pi)

/-- Lines 262-266: the time-limit check at the end of `eval_callback`.
Only entered for a positive configured limit (in minutes); reading a
never-recorded `eval_rostime_0` through the subtraction would raise a
`TypeError` (modelled by `raised`). -/
noncomputable def timeLimitCheck (s : EvalState) (nowRos : ℝ) :
    EvalState × List Effect × TickOutcome :=
  if 0 < s.time_limit then
    match s.eval_rostime_0 with
    | none => (s, [], TickOutcome.raised)
    | some r0 =>
      if s.time_limit * 60 ≤ nowRos - r0 then
        let r := stop_experiment s "Time limit reached."
        (r.1, r.2, TickOutcome.ok)
      else (s, [], TickOutcome.ok)
  else (s, [], TickOutcome.ok)

/-- `EvalData.eval_callback` (lines 199-266).  When evaluating: the
planner liveness call (any exception is caught by the bare `except` and
stops the experiment with reason `"Planner Node died."`, ending the
tick), then elapsed times, the zero-padded map name, the two drift
metrics (an uncaught raise inside them aborts the tick with no row, no
snapshot and no counter change), the CSV data row in schema order, the
save-map service call keyed by the current map name, the counter
increment, and finally the time-limit check, which also runs — and is
all that runs — when evaluation is disabled. -/
noncomputable def eval_callback (s : EvalState) (env : TickEnv) :
    EvalState × List Effect × TickOutcome :=
  if s.evaluate then
    if env.plannerOk then
      match s.eval_walltime_0, s.eval_rostime_0 with
      | some w0, some r0 =>
        let time_real := env.nowWall - w0
        let time_ros := env.nowRos - r0
        let map_name := zeroPad5 s.eval_n_maps
        match trackedDrift env.trackedLookup with
        | Except.error _ => (s, [], TickOutcome.raised)
        | Except.ok dp =>
          match estimatedDrift env.estLookup with
          | Except.error _ => (s, [], TickOutcome.raised)
          | Except.ok de =>
            let row : List Cell :=
              [Cell.str map_name, Cell.num time_ros, Cell.num time_real,
               Cell.num dp.1, Cell.num dp.2, Cell.num de.1, Cell.num de.2]
            let snapPath :=
              s.eval_directory ++ "/voxblox_maps/" ++ map_name ++ ".vxblx"
            let s1 : EvalState := { s with eval_n_maps := s.eval_n_maps + 1 }
            let tl := timeLimitCheck s1 env.nowRos2
            (tl.1, Effect.csvRow row :: Effect.snapshot snapPath :: tl.2.1, tl.2.2)
      | _, _ => (s, [], TickOutcome.raised)
    else
      let r := stop_experiment s "Planner Node died."
      (r.1, r.2, TickOutcome.ok)
  else
    timeLimitCheck s env.nowRos2

/-- The CSV rows among a list of effects, in order. -/
def csvRows (es : List Effect) : List (List Cell) :=
  es.filterMap fun e => match e with | Effect.csvRow r => some r | _ => none

/-- The save-map service paths among a list of effects, in order. -/
def snapshotPaths (es : List Effect) : List String :=
  es.filterMap fun e => match e with | Effect.snapshot p => some p | _ => none

/-- The `rospy.signal_shutdown` reasons among a list of effects. -/
def shutdownReasons (es : List Effect) : List String :=
  es.filterMap fun e => match e with | Effect.shutdownRequest r => some r | _ => none

/-- The free-text log lines among a list of effects. -/
def logLines (es : List Effect) : List String :=
  es.filterMap fun e => match e with | Effect.logLine t => some t | _ => none

/-- Number of CSV-handle `close()` calls among a list of effects. -/
def countCloseData (es : List Effect) : ℕ :=
  es.countP fun e => match e with | Effect.closeDataFile => true | _ => false

/-- Number of free-text-log `close()` calls among a list of effects. -/
def countCloseLog (es : List Effect) : ℕ :=
  es.countP fun e => match e with | Effect.closeLogFile => true | _ => false

/-- A run with evaluation disabled: `__init__` created none of the
evaluation attributes and recorded no start times yet. -/
def s0 : EvalState :=
  { evaluate := false, time_limit := 0, eval_directory := "",
    shutdown_reason_known := false, eval_n_maps := 0, collided := none,
    collisionSubscribed := false, dataFile := none, logFile := none,
    eval_walltime_0 := none, eval_rostime_0 := none }

/-- A running evaluation-enabled state after `launch_simulation` has
recorded both start timestamps (at simulated and wall time 0). -/
noncomputable def sEval : EvalState :=
  { evaluate := true, time_limit := 0, eval_directory := "/data/run",
    shutdown_reason_known := false, eval_n_maps := 0, collided := some false,
    collisionSubscribed := true, dataFile := some true, logFile := some true,
    eval_walltime_0 := some 0, eval_rostime_0 := some 0 }

/-- An evaluation-disabled run with a one-minute time limit and the
simulated start time recorded at 0 (line 155 records it regardless of
the evaluation flag). -/
noncomputable def sTL : EvalState :=
  { evaluate := false, time_limit := 1, eval_directory := "",
    shutdown_reason_known := false, eval_n_maps := 0, collided := none,
    collisionSubscribed := false, dataFile := none, logFile := none,
    eval_walltime_0 := none, eval_rostime_0 := some 0 }

/-- A tick at simulated time 5 where both transform lookups raise. -/
noncomputable def envIdle : TickEnv :=
  { plannerOk := true, nowWall := 5, nowRos := 5, nowRos2 := 5,
    trackedLookup := none, estLookup := none }

/-- A tick at simulated time 120, past a one-minute time limit. -/
noncomputable def envTL : TickEnv :=
  { plannerOk := true, nowWall := 120, nowRos := 120, nowRos2 := 120,
    trackedLookup := none, estLookup := none }

/-- A tick whose planner liveness call raises. -/
noncomputable def envDead : TickEnv :=
  { plannerOk := false, nowWall := 5, nowRos := 5, nowRos2 := 5,
    trackedLookup := none, estLookup := none }

/-- A tick whose tracked lookup returns a quaternion with scalar
component 2, outside the domain of `math.acos`. -/
noncomputable def envBadQuat : TickEnv :=
  { plannerOk := true, nowWall := 5, nowRos := 5, nowRos2 := 5,
    trackedLookup := some ((0, 0, 0), (0, 0, 0, 2)), estLookup := none }

/-- The default configuration with evaluation enabled. -/
noncomputable def cfgEV : Config :=
  { ns_planner := "/glocal/glocal_system/toggle_running", planner_delay := 0,
    startup_timeout := 0, evaluate := true, eval_frequency := 30,
    time_limit := 0, eval_directory := "/data",
    ns_voxblox := "/voxblox/voxblox_node" }

/-- The default configuration with evaluation disabled. -/
noncomputable def cfgNE : Config := { cfgEV with evaluate := false }

@[simp] theorem csvRows_nil : csvRows [] = [] := rfl

@[simp] theorem csvRows_cons_row (r : List Cell) (es : List Effect) :
    csvRows (Effect.csvRow r :: es) = r :: csvRows es := rfl

@[simp] theorem csvRows_cons_snapshot (p : String) (es : List Effect) :
    csvRows (Effect.snapshot p :: es) = csvRows es := rfl

@[simp] theorem csvRows_cons_shutdown (r : String) (es : List Effect) :
    csvRows (Effect.shutdownRequest r :: es) = csvRows es := rfl

@[simp] theorem csvRows_cons_log (t : String) (es : List Effect) :
    csvRows (Effect.logLine t :: es) = csvRows es := rfl

@[simp] theorem csvRows_cons_console (t : String) (es : List Effect) :
    csvRows (Effect.consoleLog t :: es) = csvRows es := rfl

@[simp] theorem csvRows_cons_closeData (es : List Effect) :
    csvRows (Effect.closeDataFile :: es) = csvRows es := rfl

@[simp] theorem csvRows_cons_closeLog (es : List Effect) :
    csvRows (Effect.closeLogFile :: es) = csvRows es := rfl

@[simp] theorem csvRows_append (a b : List Effect) :
    csvRows (a ++ b) = csvRows a ++ csvRows b :=
  List.filterMap_append a b _

@[simp] theorem snapshotPaths_nil : snapshotPaths [] = [] := rfl

@[simp] theorem snapshotPaths_cons_row (r : List Cell) (es : List Effect) :
    snapshotPaths (Effect.csvRow r :: es) = snapshotPaths es := rfl

@[simp] theorem snapshotPaths_cons_snapshot (p : String) (es : List Effect) :
    snapshotPaths (Effect.snapshot p :: es) = p :: snapshotPaths es := rfl

@[simp] theorem snapshotPaths_cons_shutdown (r : String) (es : List Effect) :
    snapshotPaths (Effect.shutdownRequest r :: es) = snapshotPaths es := rfl

@[simp] theorem snapshotPaths_cons_log (t : String) (es : List Effect) :
    snapshotPaths (Effect.logLine t :: es) = snapshotPaths es := rfl

@[simp] theorem snapshotPaths_cons_console (t : String) (es : List Effect) :
    snapshotPaths (Effect.consoleLog t :: es) = snapshotPaths es := rfl

@[simp] theorem snapshotPaths_cons_closeData (es : List Effect) :
    snapshotPaths (Effect.closeDataFile :: es) = snapshotPaths es := rfl

@[simp] theorem snapshotPaths_cons_closeLog (es : List Effect) :
    snapshotPaths (Effect.closeLogFile :: es) = snapshotPaths es := rfl

@[simp] theorem snapshotPaths_append (a b : List Effect) :
    snapshotPaths (a ++ b) = snapshotPaths a ++ snapshotPaths b :=
  List.filterMap_append a b _

@[simp] theorem shutdownReasons_nil : shutdownReasons [] = [] := rfl

@[simp] theorem shutdownReasons_cons_row (r : List Cell) (es : List Effect) :
    shutdownReasons (Effect.csvRow r :: es) = shutdownReasons es := rfl

@[simp] theorem shutdownReasons_cons_snapshot (p : String) (es : List Effect) :
    shutdownReasons (Effect.snapshot p :: es) = shutdownReasons es := rfl

@[simp] theorem shutdownReasons_cons_shutdown (r : String) (es : List Effect) :
    shutdownReasons (Effect.shutdownRequest r :: es) = r :: shutdownReasons es := rfl

@[simp] theorem shutdownReasons_cons_log (t : String) (es : List Effect) :
    shutdownReasons (Effect.logLine t :: es) = shutdownReasons es := rfl

@[simp] theorem shutdownReasons_cons_console (t : String) (es : List Effect) :
    shutdownReasons (Effect.consoleLog t :: es) = shutdownReasons es := rfl

@[simp] theorem shutdownReasons_cons_closeData (es : List Effect) :
    shutdownReasons (Effect.closeDataFile :: es) = shutdownReasons es := rfl

@[simp] theorem shutdownReasons_cons_closeLog (es : List Effect) :
    shutdownReasons (Effect.closeLogFile :: es) = shutdownReasons es := rfl

@[simp] theorem shutdownReasons_append (a b : List Effect) :
    shutdownReasons (a ++ b) = shutdownReasons a ++ shutdownReasons b :=
  List.filterMap_append a b _

@[simp] theorem logLines_nil : logLines [] = [] := rfl

@[simp] theorem logLines_cons_row (r : List Cell) (es : List Effect) :
    logLines (Effect.csvRow r :: es) = logLines es := rfl

@[simp] theorem logLines_cons_snapshot (p : String) (es : List Effect) :
    logLines (Effect.snapshot p :: es) = logLines es := rfl

@[simp] theorem logLines_cons_shutdown (r : String) (es : List Effect) :
    logLines (Effect.shutdownRequest r :: es) = logLines es := rfl

@[simp] theorem logLines_cons_log (t : String) (es : List Effect) :
    logLines (Effect.logLine t :: es) = t :: logLines es := rfl

@[simp] theorem logLines_cons_console (t : String) (es : List Effect) :
    logLines (Effect.consoleLog t :: es) = logLines es := rfl

@[simp] theorem logLines_cons_closeData (es : List Effect) :
    logLines (Effect.closeDataFile :: es) = logLines es := rfl

@[simp] theorem logLines_cons_closeLog (es : List Effect) :
    logLines (Effect.closeLogFile :: es) = logLines es := rfl

@[simp] theorem logLines_append (a b : List Effect) :
    logLines (a ++ b) = logLines a ++ logLines b :=
  List.filterMap_append a b _

theorem stop_experiment_state (s : EvalState) (r : String) :
    (stop_experiment s r).1 = { s with shutdown_reason_known := true } := rfl

theorem stop_experiment_reasons (s : EvalState) (r : String) :
    shutdownReasons (stop_experiment s r).2 = ["Stopping the experiment: " ++ r] := by
  unfold stop_experiment writelog
  by_cases he : s.evaluate <;> simp [he]

theorem stop_experiment_csvRows (s : EvalState) (r : String) :
    csvRows (stop_experiment s r).2 = [] := by
  unfold stop_experiment writelog
  by_cases he : s.evaluate <;> simp [he]

theorem stop_experiment_snapshots (s : EvalState) (r : String) :
    snapshotPaths (stop_experiment s r).2 = [] := by
  unfold stop_experiment writelog
  by_cases he : s.evaluate <;> simp [he]

theorem timeLimitCheck_state_effects (s : EvalState) (now r0 : ℝ)
    (hr : s.eval_rostime_0 = some r0) :
    timeLimitCheck s now =
      if 0 < s.time_limit ∧ s.time_limit * 60 ≤ now - r0 then
        ((stop_experiment s "Time limit reached.").1,
         (stop_experiment s "Time limit reached.").2, TickOutcome.ok)
      else (s, [], TickOutcome.ok) := by
  unfold timeLimitCheck
  rw [hr]
  by_cases h1 : 0 < s.time_limit
  · by_cases h2 : s.time_limit * 60 ≤ now - r0 <;> simp [h1, h2]
  · simp [h1]

theorem timeLimitCheck_csvRows (s : EvalState) (now : ℝ) :
    csvRows (timeLimitCheck s now).2.1 = [] := by
  unfold timeLimitCheck
  by_cases h1 : 0 < s.time_limit
  · cases hr : s.eval_rostime_0 with
    | none => simp [h1, hr]
    | some r0 =>
      by_cases h2 : s.time_limit * 60 ≤ now - r0 <;>
        simp [h1, hr, h2, stop_experiment_csvRows]
  · simp [h1]

theorem timeLimitCheck_snapshots (s : EvalState) (now : ℝ) :
    snapshotPaths (timeLimitCheck s now).2.1 = [] := by
  unfold timeLimitCheck
  by_cases h1 : 0 < s.time_limit
  · cases hr : s.eval_rostime_0 with
    | none => simp [h1, hr]
    | some r0 =>
      by_cases h2 : s.time_limit * 60 ≤ now - r0 <;>
        simp [h1, hr, h2, stop_experiment_snapshots]
  · simp [h1]

theorem timeLimitCheck_n_maps (s : EvalState) (now : ℝ) :
    (timeLimitCheck s now).1.eval_n_maps = s.eval_n_maps := by
  unfold timeLimitCheck
  by_cases h1 : 0 < s.time_limit
  · cases hr : s.eval_rostime_0 with
    | none => simp [h1, hr]
    | some r0 =>
      by_cases h2 : s.time_limit * 60 ≤ now - r0 <;>
        simp [h1, hr, h2, stop_experiment_state]
  · simp [h1]

theorem timeLimitCheck_count_le (s : EvalState) (now : ℝ) (x : String) :
    (shutdownReasons (timeLimitCheck s now).2.1).count x ≤ 1 := by
  unfold timeLimitCheck
  by_cases h1 : 0 < s.time_limit
  · cases hr : s.eval_rostime_0 with
    | none => simp [h1, hr]
    | some r0 =>
      by_cases h2 : s.time_limit * 60 ≤ now - r0 <;>
        simp [h1, hr, h2, stop_experiment_reasons, List.count_cons]
      split <;> omega
  · simp [h1]

theorem timeLimitCheck_ok (s : EvalState) (now r0 : ℝ)
    (hr : s.eval_rostime_0 = some r0) :
    (timeLimitCheck s now).2.2 = TickOutcome.ok := by
  rw [timeLimitCheck_state_effects s now r0 hr]
  split <;> rfl

theorem timeLimitCheck_reasons (s : EvalState) (now r0 : ℝ)
    (hr : s.eval_rostime_0 = some r0) :
    shutdownReasons (timeLimitCheck s now).2.1
      = if 0 < s.time_limit ∧ s.time_limit * 60 ≤ now - r0
        then ["Stopping the experiment: Time limit reached."] else [] := by
  rw [timeLimitCheck_state_effects s now r0 hr]
  by_cases hc : 0 < s.time_limit ∧ s.time_limit * 60 ≤ now - r0 <;>
    simp [hc, stop_experiment_reasons]

theorem deliverCollision_of_collided (s : EvalState)
    (hc : s.collided = some true) :
    deliverCollision s = (s, [], TickOutcome.ok) := by
  unfold deliverCollision collision_callback
  rw [hc]
  by_cases hs : s.collisionSubscribed <;> simp [hs]

theorem deliverCollisions_of_collided (s : EvalState)
    (hc : s.collided = some true) (n : ℕ) :
    deliverCollisions s n = (s, []) := by
  induction n with
  | zero => rfl
  | succ k ih => simp [deliverCollisions, deliverCollision_of_collided s hc, ih]

theorem deliverCollisions_not_subscribed (s : EvalState)
    (hs : s.collisionSubscribed = false) (n : ℕ) :
    deliverCollisions s n = (s, []) := by
  induction n with
  | zero => rfl
  | succ k ih => simp [deliverCollisions, deliverCollision, hs, ih]

theorem eval_callback_success (s : EvalState) (env : TickEnv) (w0 r0 : ℝ)
    (dp de : ℝ × ℝ)
    (hev : s.evaluate = true) (hp : env.plannerOk = true)
    (hw : s.eval_walltime_0 = some w0) (hr : s.eval_rostime_0 = some r0)
    (htd : trackedDrift env.trackedLookup = Except.ok dp)
    (hed : estimatedDrift env.estLookup = Except.ok de) :
    eval_callback s env =
      ((timeLimitCheck { s with eval_n_maps := s.eval_n_maps + 1 } env.nowRos2).1,
       Effect.csvRow [Cell.str (zeroPad5 s.eval_n_maps), Cell.num (env.nowRos - r0),
         Cell.num (env.nowWall - w0), Cell.num dp.1, Cell.num dp.2,
         Cell.num de.1, Cell.num de.2]
       :: Effect.snapshot (s.eval_directory ++ "/voxblox_maps/"
            ++ zeroPad5 s.eval_n_maps ++ ".vxblx")
       :: (timeLimitCheck { s with eval_n_maps := s.eval_n_maps + 1 } env.nowRos2).2.1,
       (timeLimitCheck { s with eval_n_maps := s.eval_n_maps + 1 } env.nowRos2).2.2) := by
  unfold eval_callback
  rw [hw, hr, htd, hed]
  simp [hev, hp]

theorem eval_callback_not_evaluating (s : EvalState) (env : TickEnv)
    (hev : s.evaluate = false) :
    eval_callback s env = timeLimitCheck s env.nowRos2 := by
  unfold eval_callback
  simp [hev]

theorem eval_callback_planner_dead (s : EvalState) (env : TickEnv)
    (hev : s.evaluate = true) (hp : env.plannerOk = false) :
    eval_callback s env
      = ((stop_experiment s "Planner Node died.").1,
         (stop_experiment s "Planner Node died.").2, TickOutcome.ok) := by
  unfold eval_callback
  simp [hev, hp]

theorem eval_callback_tl_count_le (s : EvalState) (env : TickEnv) :
    (shutdownReasons (eval_callback s env).2.1).count
      "Stopping the experiment: Time limit reached." ≤ 1 := by
  by_cases hev : s.evaluate
  · by_cases hp : env.plannerOk
    · unfold eval_callback
      simp only [hev, hp, if_true]
      cases hw : s.eval_walltime_0 with
      | none => cases hr : s.eval_rostime_0 <;> simp
      | some w0 =>
        cases hr : s.eval_rostime_0 with
        | none => simp
        | some r0 =>
          cases htd : trackedDrift env.trackedLookup with
          | error e => simp
          | ok dp =>
            cases hed : estimatedDrift env.estLookup with
            | error e => simp
            | ok de => simpa using timeLimitCheck_count_le _ env.nowRos2 _
    · rw [eval_callback_planner_dead s env hev (by simpa using hp)]
      calc (shutdownReasons (stop_experiment s "Planner Node died.").2).count
            "Stopping the experiment: Time limit reached."
          ≤ (shutdownReasons (stop_experiment s "Planner Node died.").2).length :=
            List.count_le_length _ _
        _ = 1 := by rw [stop_experiment_reasons]; rfl
  · rw [eval_callback_not_evaluating s env (by simpa using hev)]
    exact timeLimitCheck_count_le s env.nowRos2 _

theorem eval_callback_raise_tracked (s : EvalState) (env : TickEnv)
    (w0 r0 : ℝ) (e : Unit)
    (hev : s.evaluate = true) (hp : env.plannerOk = true)
    (hw : s.eval_walltime_0 = some w0) (hr : s.eval_rostime_0 = some r0)
    (htd : trackedDrift env.trackedLookup = Except.error e) :
    eval_callback s env = (s, [], TickOutcome.raised) := by
  unfold eval_callback
  rw [hw, hr, htd]
  simp [hev, hp]

theorem eval_callback_raise_estimated (s : EvalState) (env : TickEnv)
    (w0 r0 : ℝ) (dp : ℝ × ℝ) (e : Unit)
    (hev : s.evaluate = true) (hp : env.plannerOk = true)
    (hw : s.eval_walltime_0 = some w0) (hr : s.eval_rostime_0 = some r0)
    (htd : trackedDrift env.trackedLookup = Except.ok dp)
    (hed : estimatedDrift env.estLookup = Except.error e) :
    eval_callback s env = (s, [], TickOutcome.raised) := by
  unfold eval_callback
  rw [hw, hr, htd, hed]
  simp [hev, hp]

/-- C3 counterexample: `stop_experiment` has no once-guard.  After a
first call has already recorded the shutdown reason, a second call to
the shutdown path still issues a fresh `rospy.signal_shutdown` request
(and re-logs the reason): the second trigger is not a no-op apart from
logging, so the stop operation is not idempotent in the claimed sense. -/
theorem stop_experiment_repeat_counterexample :
    (stop_experiment s0 "Time limit reached.").1.shutdown_reason_known = true
    ∧ shutdownReasons
        (stop_experiment (stop_experiment s0 "Time limit reached.").1
          "Time limit reached.").2
      = ["Stopping the experiment: Time limit reached."] :=
  ⟨rfl, rfl⟩

/-- C3 amended: every call to the shutdown path — not only the first —
records the reason flag and issues exactly one termination request; the
`shutdown_reason_known` flag itself is monotone (set to true by every
call, so it transitions false to true at most once and a repeated call
leaves the state unchanged), but each subsequent trigger re-emits the
log line and the `rospy.signal_shutdown` request; at-most-once shutdown
delivery is left to the middleware, not enforced by this code. -/
theorem stop_experiment_every_call (s : EvalState) (r : String) :
    (stop_experiment s r).1.shutdown_reason_known = true
    ∧ shutdownReasons (stop_experiment s r).2 = ["Stopping the experiment: " ++ r]
    ∧ (stop_experiment (stop_experiment s r).1 r).1 = (stop_experiment s r).1 :=
  ⟨rfl, stop_experiment_reasons s r, rfl⟩

/-- C4: a tick whose planner liveness call raises stops the experiment
with the planner-death reason and ends immediately: no CSV row, no
snapshot call, the map counter unchanged, and the time-limit check of
that tick never runs (no time-limit shutdown request is emitted). -/
theorem planner_death_aborts_tick (s : EvalState) (env : TickEnv)
    (hev : s.evaluate = true) (hp : env.plannerOk = false) :
    eval_callback s env
      = ((stop_experiment s "Planner Node died.").1,
         (stop_experiment s "Planner Node died.").2, TickOutcome.ok)
    ∧ shutdownReasons (eval_callback s env).2.1
      = ["Stopping the experiment: Planner Node died."]
    ∧ csvRows (eval_callback s env).2.1 = []
    ∧ snapshotPaths (eval_callback s env).2.1 = []
    ∧ (eval_callback s env).1.eval_n_maps = s.eval_n_maps
    ∧ (shutdownReasons (eval_callback s env).2.1).count
        "Stopping the experiment: Time limit reached." = 0 := by
  have h := eval_callback_planner_dead s env hev hp
  refine ⟨h, ?_, ?_, ?_, ?_, ?_⟩ <;> rw [h]
  · exact stop_experiment_reasons s _
  · exact stop_experiment_csvRows s _
  · exact stop_experiment_snapshots s _
  · rw [stop_experiment_state]
  · rw [stop_experiment_reasons]
    simp [List.count_cons]

/-- C4 witness: a concrete evaluating state and a tick with a failed
planner call. -/
theorem planner_death_aborts_tick_witness :
    sEval.evaluate = true ∧ envDead.plannerOk = false
    ∧ shutdownReasons (eval_callback sEval envDead).2.1
        = ["Stopping the experiment: Planner Node died."]
    ∧ csvRows (eval_callback sEval envDead).2.1 = []
    ∧ (eval_callback sEval envDead).1.eval_n_maps = sEval.eval_n_maps :=
  ⟨rfl, rfl, (planner_death_aborts_tick sEval envDead rfl rfl).2.1,
   (planner_death_aborts_tick sEval envDead rfl rfl).2.2.1,
   (planner_death_aborts_tick sEval envDead rfl rfl).2.2.2.2.1⟩

/-- C5: collision handling is idempotent.  From a state with the
collision flag initialized to false and the subscription in place, any
number `n ≥ 1` of collision messages flips the flag to true, emits
exactly one shutdown request (with the collision reason), and the whole
run of `n` deliveries equals the run of just the first delivery —
every signal after the first is ignored. -/
theorem collision_handling_idempotent (s : EvalState) (n : ℕ) (hn : 1 ≤ n)
    (hc : s.collided = some false) (hs : s.collisionSubscribed = true) :
    (deliverCollisions s n).1.collided = some true
    ∧ shutdownReasons (deliverCollisions s n).2
        = ["Stopping the experiment: Collision detected!"]
    ∧ deliverCollisions s n = deliverCollisions s 1 := by
  have hstep : deliverCollision s
      = ((stop_experiment { s with collided := some true } "Collision detected!").1,
         ((stop_experiment { s with collided := some true } "Collision detected!").2,
          TickOutcome.ok)) := by
    unfold deliverCollision collision_callback
    rw [hc]
    simp [hs]
  have hcol : (stop_experiment { s with collided := some true }
      "Collision detected!").1.collided = some true := rfl
  have hrun : ∀ m : ℕ, deliverCollisions s (m + 1)
      = ((stop_experiment { s with collided := some true } "Collision detected!").1,
         (stop_experiment { s with collided := some true } "Collision detected!").2) := by
    intro m
    simp only [deliverCollisions, hstep]
    simp [deliverCollisions_of_collided _ hcol]
  obtain ⟨m, rfl⟩ : ∃ m, n = m + 1 := ⟨n - 1, by omega⟩
  refine ⟨?_, ?_, ?_⟩
  · rw [hrun m]; exact hcol
  · rw [hrun m]; exact stop_experiment_reasons _ _
  · rw [hrun m, hrun 0]

/-- C5 witness: three collision signals on a concrete evaluating state
behave exactly like one. -/
theorem collision_handling_idempotent_witness :
    1 ≤ 3 ∧ sEval.collided = some false ∧ sEval.collisionSubscribed = true
    ∧ (deliverCollisions sEval 3).1.collided = some true
    ∧ shutdownReasons (deliverCollisions sEval 3).2
        = ["Stopping the experiment: Collision detected!"]
    ∧ deliverCollisions sEval 3 = deliverCollisions sEval 1 :=
  ⟨by omega, rfl, rfl,
   (collision_handling_idempotent sEval 3 (by omega) rfl rfl).1,
   (collision_handling_idempotent sEval 3 (by omega) rfl rfl).2.1,
   (collision_handling_idempotent sEval 3 (by omega) rfl rfl).2.2⟩

/-- C9: a run constructed with evaluation disabled creates no collision
subscription and never initializes the collision flag, so any number of
collision signals leaves the state unchanged and emits no effect at all
(in particular no shutdown request). -/
theorem collision_inert_when_disabled (cfg : Config) (dirValid : Bool)
    (ts : String) (n : ℕ) (hev : cfg.evaluate = false) :
    ∃ (st : EvalState) (efx : List Effect),
      EvalData_init cfg dirValid ts = some (st, efx)
      ∧ st.collisionSubscribed = false ∧ st.collided = none ∧ efx = []
      ∧ deliverCollisions st n = (st, []) := by
  refine ⟨{ evaluate := false, time_limit := cfg.time_limit,
            eval_directory := "", shutdown_reason_known := false,
            eval_n_maps := 0, collided := none,
            collisionSubscribed := false, dataFile := none,
            logFile := none, eval_walltime_0 := none,
            eval_rostime_0 := none }, [], ?_, rfl, rfl, rfl, ?_⟩
  · unfold EvalData_init
    rw [hev]
    rfl
  · exact deliverCollisions_not_subscribed _ rfl n

/-- C9 witness: the default configuration with evaluation disabled and
four collision signals. -/
theorem collision_inert_when_disabled_witness :
    cfgNE.evaluate = false
    ∧ ∃ (st : EvalState) (efx : List Effect),
        EvalData_init cfgNE true "20260101_000000" = some (st, efx)
        ∧ st.collisionSubscribed = false ∧ st.collided = none ∧ efx = []
        ∧ deliverCollisions st 4 = (st, []) :=
  ⟨rfl, collision_inert_when_disabled cfgNE true "20260101_000000" 4 rfl⟩

/-- C1: a tick that runs its time-limit check (evaluation disabled, or
evaluation enabled with a live planner and no uncaught raise in the
drift computations) emits exactly one shutdown request with reason
`"Time limit reached."` when a positive limit is configured and the
elapsed simulated time (current ROS time minus the recorded simulated
start, the limit being in minutes) has reached it, and none otherwise;
moreover no tick whatsoever ever emits more than one such request. -/
theorem time_limit_shutdown_once (s : EvalState) (env : TickEnv) (r0 : ℝ)
    (hr : s.eval_rostime_0 = some r0)
    (h : s.evaluate = false ∨
      (env.plannerOk = true ∧ (∃ w0, s.eval_walltime_0 = some w0)
        ∧ (∃ dp, trackedDrift env.trackedLookup = Except.ok dp)
        ∧ (∃ de, estimatedDrift env.estLookup = Except.ok de))) :
    ((shutdownReasons (eval_callback s env).2.1).count
        "Stopping the experiment: Time limit reached."
      = if 0 < s.time_limit ∧ s.time_limit * 60 ≤ env.nowRos2 - r0 then 1 else 0)
    ∧ ∀ (s2 : EvalState) (env2 : TickEnv),
        (shutdownReasons (eval_callback s2 env2).2.1).count
          "Stopping the experiment: Time limit reached." ≤ 1 := by
  refine ⟨?_, fun s2 env2 => eval_callback_tl_count_le s2 env2⟩
  by_cases hev : s.evaluate
  · obtain ⟨hp, ⟨w0, hw⟩, ⟨dp, htd⟩, ⟨de, hed⟩⟩ := h.resolve_left (by simp [hev])
    rw [eval_callback_success s env w0 r0 dp de hev hp hw hr htd hed]
    simp only [shutdownReasons_cons_row, shutdownReasons_cons_snapshot]
    rw [timeLimitCheck_reasons { s with eval_n_maps := s.eval_n_maps + 1 }
      env.nowRos2 r0 hr]
    by_cases hc : 0 < s.time_limit ∧ s.time_limit * 60 ≤ env.nowRos2 - r0 <;>
      simp [hc]
  · rw [eval_callback_not_evaluating s env (by simpa using hev)]
    rw [timeLimitCheck_reasons s env.nowRos2 r0 hr]
    by_cases hc : 0 < s.time_limit ∧ s.time_limit * 60 ≤ env.nowRos2 - r0 <;>
      simp [hc]

/-- C1 witness: an evaluation-disabled run with a one-minute limit and
a tick at simulated time 120 emits exactly one time-limit shutdown. -/
theorem time_limit_shutdown_once_witness :
    sTL.eval_rostime_0 = some 0 ∧ sTL.evaluate = false
    ∧ (shutdownReasons (eval_callback sTL envTL).2.1).count
        "Stopping the experiment: Time limit reached." = 1 :=
  ⟨rfl, rfl, by
    have h := (time_limit_shutdown_once sTL envTL 0 rfl (Or.inl rfl)).1
    rw [h, if_pos]
    exact ⟨by norm_num [sTL], by norm_num [sTL, envTL]⟩⟩

/-- C2: a tick in which every transform lookup fails with one of the
three caught `tf` errors still appends exactly one CSV row, whose four
drift fields are all zero, still calls the snapshot service with the
path keyed by the current sequence id, still increments the map counter
by exactly one, and returns without raising. -/
theorem lookup_failure_graceful_tick (s : EvalState) (env : TickEnv)
    (w0 r0 : ℝ)
    (hev : s.evaluate = true) (hp : env.plannerOk = true)
    (hw : s.eval_walltime_0 = some w0) (hr : s.eval_rostime_0 = some r0)
    (ht : env.trackedLookup = none) (he : env.estLookup = none) :
    csvRows (eval_callback s env).2.1
      = [[Cell.str (zeroPad5 s.eval_n_maps), Cell.num (env.nowRos - r0),
          Cell.num (env.nowWall - w0), Cell.num 0, Cell.num 0,
          Cell.num 0, Cell.num 0]]
    ∧ snapshotPaths (eval_callback s env).2.1
      = [s.eval_directory ++ "/voxblox_maps/" ++ zeroPad5 s.eval_n_maps ++ ".vxblx"]
    ∧ (eval_callback s env).1.eval_n_maps = s.eval_n_maps + 1
    ∧ (eval_callback s env).2.2 = TickOutcome.ok := by
  have htd : trackedDrift env.trackedLookup = Except.ok ((0 : ℝ), (0 : ℝ)) := by
    rw [ht]; rfl
  have hed : estimatedDrift env.estLookup = Except.ok ((0 : ℝ), (0 : ℝ)) := by
    rw [he]; rfl
  have h := eval_callback_success s env w0 r0 (0, 0) (0, 0) hev hp hw hr htd hed
  refine ⟨?_, ?_, ?_, ?_⟩ <;> rw [h]
  · simp [timeLimitCheck_csvRows]
  · simp [timeLimitCheck_snapshots]
  · rw [timeLimitCheck_n_maps]
  · exact timeLimitCheck_ok _ env.nowRos2 r0 hr

/-- C2 witness: a concrete evaluating state and a tick at time 5 with
both lookups unavailable. -/
theorem lookup_failure_graceful_tick_witness :
    sEval.evaluate = true ∧ envIdle.trackedLookup = none ∧ envIdle.estLookup = none
    ∧ csvRows (eval_callback sEval envIdle).2.1
      = [[Cell.str (zeroPad5 0), Cell.num ((5 : ℝ) - 0), Cell.num ((5 : ℝ) - 0),
          Cell.num 0, Cell.num 0, Cell.num 0, Cell.num 0]]
    ∧ snapshotPaths (eval_callback sEval envIdle).2.1
      = ["/data/run" ++ "/voxblox_maps/" ++ zeroPad5 0 ++ ".vxblx"]
    ∧ (eval_callback sEval envIdle).1.eval_n_maps = 0 + 1
    ∧ (eval_callback sEval envIdle).2.2 = TickOutcome.ok :=
  ⟨rfl, rfl, rfl,
   (lookup_failure_graceful_tick sEval envIdle 0 0 rfl rfl rfl rfl rfl rfl).1,
   (lookup_failure_graceful_tick sEval envIdle 0 0 rfl rfl rfl rfl rfl rfl).2.1,
   (lookup_failure_graceful_tick sEval envIdle 0 0 rfl rfl rfl rfl rfl rfl).2.2.1,
   (lookup_failure_graceful_tick sEval envIdle 0 0 rfl rfl rfl rfl rfl rfl).2.2.2⟩

/-- C6: finalization closes each of the two log handles exactly once,
logs the fallback reason "External Interrupt" when no shutdown reason
was recorded, and always logs the summary comparing the files on disk
with the internal map counter. -/
theorem finalization_closes_and_logs (s : EvalState) (files : ℕ)
    (hev : s.evaluate = true) (hd : s.dataFile = some true)
    (hl : s.logFile = some true) :
    countCloseData (eval_finish s files).2.1 = 1
    ∧ countCloseLog (eval_finish s files).2.1 = 1
    ∧ (s.shutdown_reason_known = false →
        "Stopping the experiment: External Interrupt."
          ∈ logLines (eval_finish s files).2.1)
    ∧ ("Finished the simulation, " ++ toString files ++ "/"
        ++ toString s.eval_n_maps ++ " maps created.")
        ∈ logLines (eval_finish s files).2.1
    ∧ (eval_finish s files).1.dataFile = some false
    ∧ (eval_finish s files).1.logFile = some false := by
  unfold eval_finish
  rw [hd, hl]
  by_cases hk : s.shutdown_reason_known <;>
    simp [hk, writelog, hev, countCloseData, countCloseLog, List.countP_cons]

/-- C6 witness: a concrete evaluating state with no recorded reason and
zero files on disk. -/
theorem finalization_closes_and_logs_witness :
    sEval.evaluate = true ∧ sEval.dataFile = some true ∧ sEval.logFile = some true
    ∧ sEval.shutdown_reason_known = false
    ∧ countCloseData (eval_finish sEval 0).2.1 = 1
    ∧ countCloseLog (eval_finish sEval 0).2.1 = 1
    ∧ "Stopping the experiment: External Interrupt."
        ∈ logLines (eval_finish sEval 0).2.1 :=
  ⟨rfl, rfl, rfl, rfl,
   (finalization_closes_and_logs sEval 0 rfl rfl rfl).1,
   (finalization_closes_and_logs sEval 0 rfl rfl rfl).2.1,
   (finalization_closes_and_logs sEval 0 rfl rfl rfl).2.2.1 rfl⟩

/-- C7: on a successful tracked-drift lookup the recorded position
drift is the Euclidean norm of the translation and the recorded
rotation drift is twice the arc-cosine of the quaternion scalar
component in degrees; in particular translation `(3, 4, 0)` and scalar
component `cos(30 degrees)` give drifts `5.0` and `60.0`. -/
theorem tracked_drift_formula :
    (∀ (t : V3) (q : Quat), -1 ≤ q.2.2.2 → q.2.2.2 ≤ 1 →
      trackedDrift (some (t, q))
        = Except.ok (Real.sqrt (t.1 ^ 2 + t.2.1 ^ 2 + t.2.2 ^ 2),
            2 * Real.arccos q.2.2.2 * 180 / Real.pi))
    ∧ trackedDrift (some ((3, 4, 0), (0, 0, 0, Real.cos (Real.pi / 6))))
        = Except.ok (5, 60) := by
  have hformula : ∀ (t : V3) (q : Quat), -1 ≤ q.2.2.2 → q.2.2.2 ≤ 1 →
      trackedDrift (some (t, q))
        = Except.ok (Real.sqrt (t.1 ^ 2 + t.2.1 ^ 2 + t.2.2 ^ 2),
            2 * Real.arccos q.2.2.2 * 180 / Real.pi) := by
    intro t q h1 h2
    have hm : macos q.2.2.2 = Except.ok (Real.arccos q.2.2.2) := by
      unfold macos
      rw [if_neg (by push_neg; exact ⟨h1, h2⟩)]
    simp only [trackedDrift]
    rw [hm]
  refine ⟨hformula, ?_⟩
  have hinst : trackedDrift (some ((3, 4, 0), (0, 0, 0, Real.cos (Real.pi / 6))))
      = Except.ok (Real.sqrt ((3 : ℝ) ^ 2 + 4 ^ 2 + 0 ^ 2),
          2 * Real.arccos (Real.cos (Real.pi / 6)) * 180 / Real.pi) :=
    hformula (3, 4, 0) (0, 0, 0, Real.cos (Real.pi / 6))
      (Real.neg_one_le_cos _) (Real.cos_le_one _)
  have h1 : Real.sqrt ((3 : ℝ) ^ 2 + 4 ^ 2 + 0 ^ 2) = 5 := by
    rw [show (3 : ℝ) ^ 2 + 4 ^ 2 + 0 ^ 2 = 5 ^ 2 by norm_num]
    exact Real.sqrt_sq (by norm_num)
  have h2 : 2 * Real.arccos (Real.cos (Real.pi / 6)) * 180 / Real.pi = 60 := by
    rw [Real.arccos_cos (by positivity) (by linarith [Real.pi_pos])]
    field_simp
    ring
  rw [hinst, h1, h2]

/-- C7 witness: the concrete instance of the formula. -/
theorem tracked_drift_formula_witness :
    trackedDrift (some ((3, 4, 0), (0, 0, 0, Real.cos (Real.pi / 6))))
      = Except.ok (5, 60) :=
  tracked_drift_formula.2

/-- C8: setup writes exactly one header row and one units row, each of
exactly 7 cells in the documented order, and every data row a tick
writes has the same 7-column ordering: sequence id, elapsed sim time,
elapsed wall time, tracked position drift, tracked rotation drift,
estimated position drift, estimated rotation drift. -/
theorem csv_schema_seven_columns :
    headerRow = [Cell.str "MapName", Cell.str "RosTime", Cell.str "WallTime",
      Cell.str "PositionDrift", Cell.str "RotationDrift",
      Cell.str "PositionDriftEstimated", Cell.str "RotationDriftEstimated"]
    ∧ unitRow = [Cell.str "Unit", Cell.str "s", Cell.str "s", Cell.str "m",
      Cell.str "deg", Cell.str "m", Cell.str "deg"]
    ∧ headerRow.length = 7 ∧ unitRow.length = 7
    ∧ (∀ (cfg : Config) (ts : String), cfg.evaluate = true →
        Option.map (fun p => csvRows p.2) (EvalData_init cfg true ts)
          = some [headerRow, unitRow])
    ∧ (∀ (s : EvalState) (env : TickEnv) (w0 r0 : ℝ),
        s.eval_walltime_0 = some w0 → s.eval_rostime_0 = some r0 →
        ∀ row ∈ csvRows (eval_callback s env).2.1,
          ∃ dp dr dep der : ℝ,
            trackedDrift env.trackedLookup = Except.ok (dp, dr)
            ∧ estimatedDrift env.estLookup = Except.ok (dep, der)
            ∧ row.length = 7
            ∧ row = [Cell.str (zeroPad5 s.eval_n_maps), Cell.num (env.nowRos - r0),
                Cell.num (env.nowWall - w0), Cell.num dp, Cell.num dr,
                Cell.num dep, Cell.num der]) := by
  refine ⟨rfl, rfl, rfl, rfl, ?_, ?_⟩
  · intro cfg ts hev
    unfold EvalData_init
    rw [hev]
    simp
  · intro s env w0 r0 hw hr row hrow
    by_cases hev : s.evaluate
    · by_cases hp : env.plannerOk
      · cases htd : trackedDrift env.trackedLookup with
        | error e =>
          rw [eval_callback_raise_tracked s env w0 r0 e hev hp hw hr htd] at hrow
          simp at hrow
        | ok dp =>
          cases hed : estimatedDrift env.estLookup with
          | error e =>
            rw [eval_callback_raise_estimated s env w0 r0 dp e hev hp hw hr htd hed]
              at hrow
            simp at hrow
          | ok de =>
            rw [eval_callback_success s env w0 r0 dp de hev hp hw hr htd hed] at hrow
            simp [timeLimitCheck_csvRows] at hrow
            exact ⟨dp.1, dp.2, de.1, de.2, by simp [htd], by simp [hed],
              by rw [hrow]; rfl, by rw [hrow]⟩
      · rw [eval_callback_planner_dead s env hev (by simpa using hp)] at hrow
        simp [stop_experiment_csvRows] at hrow
    · rw [eval_callback_not_evaluating s env (by simpa using hev)] at hrow
      simp [timeLimitCheck_csvRows] at hrow

/-- C8 witness: setup under the default evaluation-enabled
configuration writes exactly the header and units rows. -/
theorem csv_schema_seven_columns_witness :
    cfgEV.evaluate = true
    ∧ Option.map (fun p => csvRows p.2) (EvalData_init cfgEV true "20260101_000000")
        = some [headerRow, unitRow] :=
  ⟨rfl, csv_schema_seven_columns.2.2.2.2.1 cfgEV "20260101_000000" rfl⟩

/-- C10: the arc-cosine is applied to the quaternion scalar component
without clamping, and only the three transform-lookup exception types
are caught, so a tick whose tracked lookup returns a scalar component
outside `[-1, 1]` raises uncaught and aborts: no CSV row, no snapshot,
no counter change, no shutdown request, and no time-limit check. -/
theorem acos_domain_error_aborts (s : EvalState) (env : TickEnv)
    (t : V3) (q : Quat) (w0 r0 : ℝ)
    (hev : s.evaluate = true) (hp : env.plannerOk = true)
    (hw : s.eval_walltime_0 = some w0) (hr : s.eval_rostime_0 = some r0)
    (hl : env.trackedLookup = some (t, q))
    (hq : q.2.2.2 < -1 ∨ 1 < q.2.2.2) :
    macos q.2.2.2 = Except.error ()
    ∧ eval_callback s env = (s, [], TickOutcome.raised)
    ∧ csvRows (eval_callback s env).2.1 = []
    ∧ snapshotPaths (eval_callback s env).2.1 = []
    ∧ (eval_callback s env).1.eval_n_maps = s.eval_n_maps
    ∧ shutdownReasons (eval_callback s env).2.1 = [] := by
  have hm : macos q.2.2.2 = Except.error () := by
    unfold macos
    rw [if_pos hq]
  have htd : trackedDrift env.trackedLookup = Except.error () := by
    rw [hl]
    simp only [trackedDrift]
    rw [hm]
  have h := eval_callback_raise_tracked s env w0 r0 () hev hp hw hr htd
  exact ⟨hm, h, by simp [h], by simp [h], by simp [h], by simp [h]⟩

/-- C10 witness: a lookup returning quaternion scalar component 2
aborts a concrete tick. -/
theorem acos_domain_error_aborts_witness :
    sEval.evaluate = true
    ∧ envBadQuat.trackedLookup = some ((0, 0, 0), (0, 0, 0, 2))
    ∧ ((0 : ℝ), (0 : ℝ), (0 : ℝ), (2 : ℝ)).2.2.2 > 1
    ∧ eval_callback sEval envBadQuat = (sEval, [], TickOutcome.raised) :=
  ⟨rfl, rfl, by norm_num,
   (acos_domain_error_aborts sEval envBadQuat (0, 0, 0) (0, 0, 0, 2) 0 0
     rfl rfl rfl rfl rfl (Or.inr (by norm_num))).2.1⟩

end ExperimentManager
